import Mathlib

set_option maxRecDepth 4000

/-!
Shallow embedding of the returns/metrics pipeline of the Portfolio Dashboard
(src/Dashboard.py and src/pages/1_Stock_Deep_Dive.py).  Prices and fundamental
figures are modelled as rationals; Python `None` becomes `Option`/dedicated
constructors; an uncaught exception becomes `Except.error`.
-/

/-- Calendar date (year, month, day), mirroring the Python `datetime` values the
source compares and subtracts. -/
structure Date where
  year : Nat
  month : Nat
  day : Nat
deriving DecidableEq, Repr

/-- Chronological key: for valid dates, lexicographic (year, month, day) order,
which is exactly how `datetime`/pandas timestamps compare. -/
def Date.toOrd (d : Date) : Nat := d.year * 10000 + d.month * 100 + d.day

instance : LE Date := ⟨fun a b => a.toOrd ≤ b.toOrd⟩

instance : LT Date := ⟨fun a b => a.toOrd < b.toOrd⟩

instance (a b : Date) : Decidable (a ≤ b) :=
  inferInstanceAs (Decidable (a.toOrd ≤ b.toOrd))

instance (a b : Date) : Decidable (a < b) :=
  inferInstanceAs (Decidable (a.toOrd < b.toOrd))

/-- Gregorian leap year rule, as implemented by Python's `datetime`. -/
def isLeapYear (y : Nat) : Bool := (y % 4 == 0 && y % 100 != 0) || y % 400 == 0

/-- Days in a month, as Python's `datetime`/`timedelta` arithmetic uses. -/
def daysInMonth (y m : Nat) : Nat :=
  if m = 2 then (if isLeapYear y then 29 else 28)
  else if m = 4 ∨ m = 6 ∨ m = 9 ∨ m = 11 then 30
  else 31

/-- The calendar day before `d`: models `d - timedelta(days=1)`. -/
def predDay (d : Date) : Date :=
  if 1 < d.day then ⟨d.year, d.month, d.day - 1⟩
  else if 1 < d.month then ⟨d.year, d.month - 1, daysInMonth d.year (d.month - 1)⟩
  else ⟨d.year - 1, 12, 31⟩

/-- First month of the quarter containing month `m`:
models `(today.month - 1) // 3 * 3 + 1` (Dashboard.py line 33). -/
def quarterStartMonth (m : Nat) : Nat := (m - 1) / 3 * 3 + 1

/-- Last calendar day of the previous quarter:
`datetime(today.year, current_quarter_start, 1) - timedelta(days=1)`
(Dashboard.py line 34; same expression at 1_Stock_Deep_Dive.py lines 43 and 233). -/
def previousQuarterEnd (today : Date) : Date :=
  predDay ⟨today.year, quarterStartMonth today.month, 1⟩

/-- One historical price record: a date and its closing price. -/
structure PricePoint where
  date : Date
  close : ℚ
deriving DecidableEq, Repr

/-- Strictly ascending by date; the source sorts the API response by date before
any computation, and the spec's sequences are ascending by date. -/
def Ascending (l : List PricePoint) : Prop :=
  l.Chain' (fun a b => a.date < b.date)

/-- Result of a guarded ratio computation.  `unavailable` models Python `None`;
`nonfin` models the non-finite float (inf/NaN) or the ZeroDivisionError produced
when a denominator that slipped past the guard is zero. -/
inductive RVal where
  | unavailable : RVal
  | fin : ℚ → RVal
  | nonfin : RVal
deriving DecidableEq, Repr

/-- Raw division exactly as the source performs it: a finite quotient unless the
denominator is zero, in which case the float result is non-finite. -/
def pydiv (a b : ℚ) : RVal := if b = 0 then .nonfin else .fin (a / b)

/-- Multiply a division result by a constant (`... * 100` applied after a raw
division); non-finite stays non-finite. -/
def RVal.scale (x : RVal) (k : ℚ) : RVal :=
  match x with
  | .fin v => .fin (v * k)
  | x => x

/-- Result of `Dashboard.get_stock_price`: the source returns `(None, None, None)`
when the response lacks the "historical" key, otherwise the last close, the
second-to-last close, and optionally the last close at or before the
previous-quarter-end boundary. -/
inductive PriceFetch where
  | noData : PriceFetch
  | ok : ℚ → ℚ → Option ℚ → PriceFetch
deriving DecidableEq, Repr

/-- `Dashboard.get_stock_price` (lines 15-45).  `resp` is the parsed "historical"
list already sorted ascending by date (the source sorts it at line 25); `none`
models a response without the "historical" key.  `.error ()` models the uncaught
IndexError raised by `prices.iloc[-1]` / `prices.iloc[-2]` when there are fewer
than two rows (lines 28-29). -/
def get_stock_price (resp : Option (List PricePoint)) (today : Date) :
    Except Unit PriceFetch :=
  match resp with
  | none => .ok .noData
  | some prices =>
    match prices.getLast?, prices.reverse[1]? with
    | some lastP, some sndP =>
      let boundary := previousQuarterEnd today
      let pq := prices.filter (fun p => decide (p.date ≤ boundary))
      .ok (.ok lastP.close sndP.close ((pq.getLast?).map PricePoint.close))
    | _, _ => .error ()

/-- A portfolio holding: ticker and weight as a percentage. -/
structure Holding where
  ticker : String
  weight : ℚ
deriving DecidableEq, Repr

/-- One row of the Dashboard performance table before rounding (lines 114-124). -/
structure PerfRow where
  ticker : String
  weight : ℚ
  currentPrice : ℚ
  yesterdayClose : ℚ
  prevQuarterPrice : ℚ
  quarterlyReturn : ℚ
  dayGain : ℚ
deriving DecidableEq, Repr

/-- One iteration of the Dashboard performance_data loop (lines 108-124): the row
is kept only when all three prices are truthy, i.e. present and nonzero
(`if current_price and yesterday_price and previous_quarter_price`). -/
def rowOf (h : Holding) (pf : PriceFetch) : Option PerfRow :=
  match pf with
  | .noData => none
  | .ok c y q =>
    match q with
    | none => none
    | some qv =>
      if c ≠ 0 ∧ y ≠ 0 ∧ qv ≠ 0 then
        some ⟨h.ticker, h.weight, c, y, qv, (c - qv) / qv * 100, (c - y) / y * 100⟩
      else none

/-- The Dashboard performance_data list (lines 107-124): rows for the holdings
whose three prices are all available and truthy, in portfolio order. -/
def performance_data (l : List (Holding × PriceFetch)) : List PerfRow :=
  l.filterMap (fun hp => rowOf hp.1 hp.2)

/-- Round a rational to 2 decimal places, modelling `DataFrame.round(2)`
(Dashboard.py line 144).  Binary-float rounding differs from this exact rule
only on half-way ties, which none of the statements below exercise. -/
def round2 (q : ℚ) : ℚ := ((q * 100 + 1 / 2).floor : ℚ) / 100

/-- A performance_df row after the contribution column is added and every
numeric column is rounded to 2 decimals (Dashboard lines 127-144). -/
structure PerfRow2 where
  ticker : String
  weight : ℚ
  currentPrice : ℚ
  yesterdayClose : ℚ
  prevQuarterPrice : ℚ
  quarterlyReturn : ℚ
  dayGain : ℚ
  contribution : ℚ
deriving DecidableEq, Repr

/-- Add the Performance Contribution column (weight × quarterly return / 100,
Dashboard lines 139-141, computed from the unrounded values) and round every
numeric column to 2 decimals (line 144). -/
def roundRow (r : PerfRow) : PerfRow2 :=
  ⟨r.ticker, round2 r.weight, round2 r.currentPrice, round2 r.yesterdayClose,
   round2 r.prevQuarterPrice, round2 r.quarterlyReturn, round2 r.dayGain,
   round2 (r.weight * r.quarterlyReturn / 100)⟩

/-- The Dashboard performance_df as handed to the aggregator: table rows with the
contribution column, all numeric values rounded to 2 decimals (lines 127-144). -/
def performance_df (l : List (Holding × PriceFetch)) : List PerfRow2 :=
  (performance_data l).map roundRow

/-- `Dashboard.calculate_portfolio_performance` (lines 56-60):
`np.sum(df["Weight (%)"] * df["Quarterly Return (%)"]) / 100` and the same for
the day gains — elementwise column product, summed, divided by 100. -/
def calculate_portfolio_performance (rows : List PerfRow2) : ℚ × ℚ :=
  ((List.zipWith (fun w r => w * r) (rows.map PerfRow2.weight)
      (rows.map PerfRow2.quarterlyReturn)).sum / 100,
   (List.zipWith (fun w r => w * r) (rows.map PerfRow2.weight)
      (rows.map PerfRow2.dayGain)).sum / 100)

/-- The body of `get_sp500_performance` (Dashboard lines 47-54) applied to the
SPY fetch result: the guard tests only the current and previous-quarter closes
(`if spy_current and spy_previous_quarter`); the daily return then divides by
the yesterday close with no guard on it. -/
def sp500_from_fetch : PriceFetch → RVal × RVal
  | .noData => (.unavailable, .unavailable)
  | .ok c y q =>
    match q with
    | none => (.unavailable, .unavailable)
    | some qv =>
      if c ≠ 0 ∧ qv ≠ 0 then
        ((pydiv (c - qv) qv).scale 100, (pydiv (c - y) y).scale 100)
      else (.unavailable, .unavailable)

/-- `Dashboard.get_sp500_performance` (lines 47-54): fetch SPY prices and apply
the guarded return computation; a crash in the fetch propagates. -/
def get_sp500_performance (resp : Option (List PricePoint)) (today : Date) :
    Except Unit (RVal × RVal) :=
  (get_stock_price resp today).map sp500_from_fetch

/-- `1_Stock_Deep_Dive.calculate_returns` (lines 38-52).  `.error ()` models the
uncaught IndexError from `prices.iloc[-2]` on a one-row frame (line 42).  The
QTD anchor is the FIRST point with date ≥ the previous-quarter-end boundary
(`prices[prices["date"] >= qtd_start_date]` then `.iloc[0]`, lines 45-46); the
day and QTD returns are guarded by truthiness of their own denominators. -/
def calculate_returns (resp : Option (List PricePoint)) (today : Date) :
    Except Unit (RVal × RVal) :=
  match resp with
  | none => .ok (.unavailable, .unavailable)
  | some [] => .ok (.unavailable, .unavailable)
  | some prices =>
    match prices.getLast?, prices.reverse[1]? with
    | some lastP, some sndP =>
      let boundary := previousQuarterEnd today
      let qtdStart :=
        ((prices.filter (fun p => decide (boundary ≤ p.date))).head?).map PricePoint.close
      let dayR : RVal :=
        if sndP.close ≠ 0 then .fin ((lastP.close - sndP.close) / sndP.close * 100)
        else .unavailable
      let qtdR : RVal :=
        match qtdStart with
        | some s => if s ≠ 0 then .fin ((lastP.close - s) / s * 100) else .unavailable
        | none => .unavailable
      .ok (dayR, qtdR)
    | _, _ => .error ()

/-- Modelled from the spec: the spec's QTD reference rule, stated in the spec's own
words for comparison with the code.  referenceClose is the close of the LAST
PricePoint with date ≤ the previous-quarter-end boundary; the quarter return is
unavailable when no such point exists. -/
def specQtdReturn (prices : List PricePoint) (today : Date) : Option ℚ :=
  match prices.getLast?,
      (prices.filter (fun p => decide (p.date ≤ previousQuarterEnd today))).getLast? with
  | some lastP, some refP => some ((lastP.close - refP.close) / refP.close * 100)
  | _, _ => none

/-- The reference rule the deep-dive page actually implements, stated standalone:
anchor at the first point on or after the previous-quarter-end boundary. -/
def firstOnOrAfterQtdReturn (prices : List PricePoint) (today : Date) : Option ℚ :=
  match prices.getLast?,
      (prices.filter (fun p => decide (previousQuarterEnd today ≤ p.date))).head? with
  | some lastP, some refP => some ((lastP.close - refP.close) / refP.close * 100)
  | _, _ => none

/-- One quarterly income-statement row (the fields the source reads). -/
structure IncRow where
  revenue : ℚ
  grossProfit : ℚ
  netIncome : ℚ
  weightedAverageShsOut : ℚ
  eps : ℚ
deriving DecidableEq, Repr

/-- One quarterly cash-flow row (the field the source reads). -/
structure CfRow where
  freeCashFlow : ℚ
deriving DecidableEq, Repr

/-- Python `l[-4:]`: the last `n` elements (the whole list when shorter). -/
def lastN (l : List α) (n : Nat) : List α := l.drop (l.length - n)

/-- The metrics table built by `calculate_financial_metrics`. -/
structure Metrics where
  revenue : ℚ
  grossProfit : ℚ
  netIncome : ℚ
  weightedAvgShares : ℚ
  eps : ℚ
  freeCashFlow : ℚ
  fcfPerShare : RVal
  grossMargin : RVal
  netIncomeMargin : RVal
  ttmRevenue : ℚ
  ttmGrossProfit : ℚ
  ttmNetIncome : ℚ
  ttmFreeCashFlow : ℚ
  ttmEps : ℚ
  ttmGrossMargin : RVal
  ttmNetIncomeMargin : RVal
  ttmFcfPerShare : RVal
  yoyRevenueGrowth : RVal
  yoyEpsGrowth : RVal
  yoyFcfGrowth : RVal
deriving DecidableEq, Repr

/-- `1_Stock_Deep_Dive.calculate_financial_metrics` (lines 68-166) on the two
statement sequences already flipped to chronological (ascending) order, as the
source does at lines 76-77.  Returns `none` when either fetch produced no rows
(`get_financial_statements` returns None for a non-200 status or empty payload,
lines 58-66, and the source checks both for None at line 74).  Each guarded
ratio is written with the source's own guard; note that `ttm_fcf_per_share`
(lines 97-101) is guarded by the CURRENT-quarter share count while its
denominator is the mean share count of the last four quarters. -/
def calculate_financial_metrics (inc : List IncRow) (cf : List CfRow) :
    Option Metrics :=
  match inc.getLast?, cf.getLast? with
  | some lastInc, some lastCf =>
    let revenue := lastInc.revenue
    let gross_profit := lastInc.grossProfit
    let net_income := lastInc.netIncome
    let weighted_avg_shares := lastInc.weightedAverageShsOut
    let eps := lastInc.eps
    let free_cash_flow := lastCf.freeCashFlow
    let fcf_per_share : RVal :=
      if weighted_avg_shares ≠ 0 then pydiv free_cash_flow weighted_avg_shares
      else .unavailable
    let gross_margin : RVal :=
      if revenue ≠ 0 then pydiv gross_profit revenue else .unavailable
    let net_income_margin : RVal :=
      if revenue ≠ 0 then pydiv net_income revenue else .unavailable
    let ttm_revenue := ((lastN inc 4).map IncRow.revenue).sum
    let ttm_gross_profit := ((lastN inc 4).map IncRow.grossProfit).sum
    let ttm_net_income := ((lastN inc 4).map IncRow.netIncome).sum
    let ttm_free_cash_flow := ((lastN cf 4).map CfRow.freeCashFlow).sum
    let ttm_fcf_per_share : RVal :=
      if weighted_avg_shares ≠ 0 then
        pydiv ttm_free_cash_flow
          (((lastN inc 4).map IncRow.weightedAverageShsOut).sum /
            ((lastN inc 4).length : ℚ))
      else .unavailable
    let ttm_eps := ((lastN inc 4).map IncRow.eps).sum
    let yoy_revenue_growth : RVal :=
      match inc[inc.length - 5]? with
      | some p5 =>
        if 4 < inc.length ∧ p5.revenue ≠ 0 then .fin (revenue / p5.revenue - 1)
        else .unavailable
      | none => .unavailable
    let yoy_eps_growth : RVal :=
      match inc[inc.length - 5]? with
      | some p5 =>
        if 4 < inc.length ∧ p5.eps ≠ 0 then .fin (eps / p5.eps - 1)
        else .unavailable
      | none => .unavailable
    let yoy_fcf_growth : RVal :=
      match cf[cf.length - 5]? with
      | some p5 =>
        if 4 < cf.length ∧ p5.freeCashFlow ≠ 0 then
          .fin (free_cash_flow / p5.freeCashFlow - 1)
        else .unavailable
      | none => .unavailable
    some
      { revenue := revenue
        grossProfit := gross_profit
        netIncome := net_income
        weightedAvgShares := weighted_avg_shares
        eps := eps
        freeCashFlow := free_cash_flow
        fcfPerShare := fcf_per_share
        grossMargin := gross_margin
        netIncomeMargin := net_income_margin
        ttmRevenue := ttm_revenue
        ttmGrossProfit := ttm_gross_profit
        ttmNetIncome := ttm_net_income
        ttmFreeCashFlow := ttm_free_cash_flow
        ttmEps := ttm_eps
        ttmGrossMargin :=
          if ttm_revenue ≠ 0 then pydiv ttm_gross_profit ttm_revenue else .unavailable
        ttmNetIncomeMargin :=
          if ttm_revenue ≠ 0 then pydiv ttm_net_income ttm_revenue else .unavailable
        ttmFcfPerShare := ttm_fcf_per_share
        yoyRevenueGrowth := yoy_revenue_growth
        yoyEpsGrowth := yoy_eps_growth
        yoyFcfGrowth := yoy_fcf_growth }
  | _, _ => none

/-- Demo portfolio for C4: the spec's own example, weights 60 and 40 with
quarterly returns 10% and −5%. -/
def c4demo : List (Holding × PriceFetch) :=
  [({ ticker := "A", weight := 60 }, .ok 110 110 (some 100)),
   ({ ticker := "B", weight := 40 }, .ok 95 95 (some 100))]

/-- Demo portfolio for C5: one complete holding (weight 60, quarterly return
10%) and one holding with no price data at all (weight 40). -/
def c5demo : List (Holding × PriceFetch) :=
  [({ ticker := "A", weight := 60 }, .ok 110 110 (some 100)),
   ({ ticker := "B", weight := 40 }, .noData)]

/-- Demo portfolio for C6: one holding, weight 10%, whose exact quarterly
return is 1.006% (price 101006 against a prior-quarter close of 100000). -/
def c6demo : List (Holding × PriceFetch) :=
  [({ ticker := "A", weight := 10 }, .ok 101006 100000 (some 100000))]

/-- Ascending price history for C1 with no trading day exactly on the
2024-03-31 boundary: closes 110 (Mar 28), 100 (Apr 1), 121 (May 15). -/
def c1prices : List PricePoint :=
  [{ date := ⟨2024, 3, 28⟩, close := 110 },
   { date := ⟨2024, 4, 1⟩, close := 100 },
   { date := ⟨2024, 5, 15⟩, close := 121 }]

/-- SPY price history for the C3 counterexample: yesterday's close is exactly 0
while the current and prior-quarter closes are nonzero. -/
def spyPrices0 : List PricePoint :=
  [{ date := ⟨2024, 3, 28⟩, close := 4 },
   { date := ⟨2024, 5, 14⟩, close := 0 },
   { date := ⟨2024, 5, 15⟩, close := 5 }]

/-- Income rows for the C3 counterexample: the current-quarter share count is 1
(truthy), but the 4-quarter mean share count is (−1 + 1) / 2 = 0. -/
def incMeanZero : List IncRow :=
  [{ revenue := 1, grossProfit := 1, netIncome := 1, weightedAverageShsOut := -1, eps := 1 },
   { revenue := 1, grossProfit := 1, netIncome := 1, weightedAverageShsOut := 1, eps := 1 }]

/-- Cash-flow rows for the C3 counterexample. -/
def cfMeanZero : List CfRow := [{ freeCashFlow := 10 }, { freeCashFlow := 10 }]

/-- Five-quarter income history for the C7 witness: revenue grows from 10 to
50, EPS from 2 to 6. -/
def incFive : List IncRow :=
  [{ revenue := 10, grossProfit := 1, netIncome := 1, weightedAverageShsOut := 1, eps := 2 },
   { revenue := 1, grossProfit := 1, netIncome := 1, weightedAverageShsOut := 1, eps := 1 },
   { revenue := 1, grossProfit := 1, netIncome := 1, weightedAverageShsOut := 1, eps := 1 },
   { revenue := 1, grossProfit := 1, netIncome := 1, weightedAverageShsOut := 1, eps := 1 },
   { revenue := 50, grossProfit := 1, netIncome := 1, weightedAverageShsOut := 1, eps := 6 }]

/-- Five-quarter cash-flow history for the C7 witness: FCF grows from 5 to 20. -/
def cfFive : List CfRow :=
  [{ freeCashFlow := 5 }, { freeCashFlow := 1 }, { freeCashFlow := 1 },
   { freeCashFlow := 1 }, { freeCashFlow := 20 }]

/-- Two-quarter histories for the C10 witness. -/
def incTwo : List IncRow :=
  [{ revenue := 10, grossProfit := 4, netIncome := 2, weightedAverageShsOut := 3, eps := 1 },
   { revenue := 20, grossProfit := 6, netIncome := 3, weightedAverageShsOut := 5, eps := 2 }]

/-- Two-quarter cash-flow history for the C10 witness. -/
def cfTwo : List CfRow := [{ freeCashFlow := 7 }, { freeCashFlow := 9 }]

/-- Elementwise product of two columns extracted from the same rows is the
per-row product. -/
theorem zipWith_map_same (f : α → β) (g : α → γ) (h : β → γ → δ) (l : List α) :
    List.zipWith h (l.map f) (l.map g) = l.map (fun x => h (f x) (g x)) := by
  induction l with
  | nil => rfl
  | cons a t ih => simp [ih]

/-- A guarded division is non-finite exactly when its denominator is zero. -/
theorem pydiv_eq_nonfin_iff (a b : ℚ) : pydiv a b = .nonfin ↔ b = 0 := by
  unfold pydiv
  split <;> simp_all

/-- Python l[-4:] is the whole list when the list has at most 4 elements. -/
theorem lastN_eq_self {l : List α} (h : l.length ≤ 4) : lastN l 4 = l := by
  simp [lastN, Nat.sub_eq_zero_of_le h]

/-- C8: for every evaluation date, the previous-quarter-end boundary equals the
day before the first day of the month that starts the quarter containing the
evaluation date; that month is one of 1, 4, 7, 10 and its quarter contains the
evaluation month; concretely 2024-05-15 yields 2024-03-31 and 2024-01-15 yields
2023-12-31. -/
theorem c8_quarter_boundary (y m d : Nat) (h1 : 1 ≤ m) (h2 : m ≤ 12) :
    (quarterStartMonth m = 1 ∨ quarterStartMonth m = 4 ∨ quarterStartMonth m = 7 ∨
      quarterStartMonth m = 10)
    ∧ quarterStartMonth m ≤ m ∧ m ≤ quarterStartMonth m + 2
    ∧ previousQuarterEnd ⟨y, m, d⟩ = predDay ⟨y, quarterStartMonth m, 1⟩
    ∧ previousQuarterEnd ⟨2024, 5, 15⟩ = ⟨2024, 3, 31⟩
    ∧ previousQuarterEnd ⟨2024, 1, 15⟩ = ⟨2023, 12, 31⟩ := by
  refine ⟨?_, ?_, ?_, rfl, by decide, by decide⟩ <;> interval_cases m <;> decide

/-- Witness for C8 at the evaluation date 2024-05-15. -/
theorem c8_quarter_boundary_witness :
    (quarterStartMonth 5 = 1 ∨ quarterStartMonth 5 = 4 ∨ quarterStartMonth 5 = 7 ∨
      quarterStartMonth 5 = 10)
    ∧ quarterStartMonth 5 ≤ 5 ∧ 5 ≤ quarterStartMonth 5 + 2
    ∧ previousQuarterEnd ⟨2024, 5, 15⟩ = predDay ⟨2024, quarterStartMonth 5, 1⟩
    ∧ previousQuarterEnd ⟨2024, 5, 15⟩ = ⟨2024, 3, 31⟩
    ∧ previousQuarterEnd ⟨2024, 1, 15⟩ = ⟨2023, 12, 31⟩ :=
  c8_quarter_boundary 2024 5 15 (by decide) (by decide)

/-- C2 (code bug): on a one-point price history, both Dashboard.get_stock_price
and the deep-dive calculate_returns raise an uncaught IndexError from iloc[-2]
instead of reporting the day return as unavailable; on a two-point history the
day return is exactly (last − secondLast) / secondLast × 100. -/
theorem c2_short_history_crash :
    get_stock_price (some [{ date := ⟨2024, 5, 15⟩, close := 100 }]) ⟨2024, 5, 16⟩
      = .error ()
    ∧ calculate_returns (some [{ date := ⟨2024, 5, 15⟩, close := 100 }]) ⟨2024, 5, 16⟩
      = .error ()
    ∧ calculate_returns (some [{ date := ⟨2024, 5, 14⟩, close := 100 },
        { date := ⟨2024, 5, 15⟩, close := 110 }]) ⟨2024, 5, 16⟩
      = .ok (.fin ((110 - 100) / 100 * 100), .fin ((110 - 100) / 100 * 100))
    ∧ ((110 : ℚ) - 100) / 100 * 100 = 10 := by
  refine ⟨rfl, rfl, rfl, by norm_num⟩

/-- C9: a price of exactly 0 is treated like missing data by the Python
truthiness guards: the holding's row is dropped from the performance table (and
thus from the weighted sums), and a zero SPY current or prior-quarter close
makes both benchmark returns unavailable. -/
theorem c9_zero_prices_excluded :
    (∀ h y q, rowOf h (.ok 0 y q) = none)
    ∧ (∀ h c q, rowOf h (.ok c 0 q) = none)
    ∧ (∀ h c y, rowOf h (.ok c y (some 0)) = none)
    ∧ (∀ l h y q, performance_data (l ++ [(h, .ok 0 y q)]) = performance_data l)
    ∧ (∀ y q, sp500_from_fetch (.ok 0 y q) = (.unavailable, .unavailable))
    ∧ (∀ c y, sp500_from_fetch (.ok c y (some 0)) = (.unavailable, .unavailable)) := by
  have hz : ∀ h y q, rowOf h (.ok 0 y q) = none := by
    intro h y q
    cases q with
    | none => rfl
    | some qv => simp [rowOf]
  refine ⟨hz, ?_, ?_, ?_, ?_, ?_⟩
  · intro h c q
    cases q with
    | none => rfl
    | some qv => simp [rowOf]
  · intro h c y
    simp [rowOf]
  · intro l h y q
    simp [performance_data, List.filterMap_append, hz]
  · intro y q
    cases q with
    | none => rfl
    | some qv => simp [sp500_from_fetch]
  · intro c y
    simp [sp500_from_fetch]


/-- C4: the portfolio quarter and day returns are exactly the weighted sums
Σ(weight_i × return_i) / 100 of the performance table's figures, with no
renormalization; on the spec's example the portfolio quarter return is
exactly 4. -/
theorem c4_weighted_portfolio (rows : List PerfRow2) :
    calculate_portfolio_performance rows
      = ((rows.map (fun r => r.weight * r.quarterlyReturn)).sum / 100,
         (rows.map (fun r => r.weight * r.dayGain)).sum / 100)
    ∧ calculate_portfolio_performance (performance_df c4demo) = (4, 0) := by
  constructor
  · simp [calculate_portfolio_performance, zipWith_map_same]
  · rw [show performance_df c4demo
        = [roundRow ⟨"A", 60, 110, 110, 100, (110 - 100) / 100 * 100, (110 - 110) / 110 * 100⟩,
           roundRow ⟨"B", 40, 95, 95, 100, (95 - 100) / 100 * 100, (95 - 95) / 95 * 100⟩] from rfl]
    norm_num [calculate_portfolio_performance, roundRow, round2, Rat.floor]


/-- C5: a holding whose return could not be computed is excluded from the
performance table and contributes nothing to the portfolio sums (it is not a
zero-return row), and the remaining weights are not renormalized: the weighted
sum is still divided by the constant 100, so the demo portfolio (60% at 10%
plus an unavailable 40% holding) returns 6, not 10. -/
theorem c5_excluded_holdings (l : List (Holding × PriceFetch)) (h : Holding)
    (pf : PriceFetch) (h0 : rowOf h pf = none) :
    performance_df (l ++ [(h, pf)]) = performance_df l
    ∧ calculate_portfolio_performance (performance_df (l ++ [(h, pf)]))
        = calculate_portfolio_performance (performance_df l)
    ∧ calculate_portfolio_performance (performance_df l)
        = (((performance_data l).map
              (fun r => round2 r.weight * round2 r.quarterlyReturn)).sum / 100,
           ((performance_data l).map
              (fun r => round2 r.weight * round2 r.dayGain)).sum / 100)
    ∧ calculate_portfolio_performance (performance_df c5demo) = (6, 0) := by
  have hskip : performance_df (l ++ [(h, pf)]) = performance_df l := by
    simp [performance_df, performance_data, List.filterMap_append, h0]
  have hsum : ∀ L : List (Holding × PriceFetch),
      calculate_portfolio_performance (performance_df L)
        = (((performance_data L).map
              (fun r => round2 r.weight * round2 r.quarterlyReturn)).sum / 100,
           ((performance_data L).map
              (fun r => round2 r.weight * round2 r.dayGain)).sum / 100) := by
    intro L
    simp [calculate_portfolio_performance, performance_df, List.map_map,
      Function.comp, roundRow, zipWith_map_same]
  refine ⟨hskip, by rw [hskip], hsum l, ?_⟩
  rw [show performance_df c5demo
      = [roundRow ⟨"A", 60, 110, 110, 100, (110 - 100) / 100 * 100, (110 - 110) / 110 * 100⟩]
      from rfl]
  norm_num [calculate_portfolio_performance, roundRow, round2, Rat.floor]

/-- Witness for C5: appending the no-data holding of c5demo to the singleton
complete portfolio changes neither the table nor the aggregates. -/
theorem c5_excluded_holdings_witness :
    performance_df ([({ ticker := "A", weight := 60 }, .ok 110 110 (some 100))]
        ++ [({ ticker := "B", weight := 40 }, .noData)])
      = performance_df [({ ticker := "A", weight := 60 }, .ok 110 110 (some 100))]
    ∧ calculate_portfolio_performance
        (performance_df ([({ ticker := "A", weight := 60 }, .ok 110 110 (some 100))]
          ++ [({ ticker := "B", weight := 40 }, .noData)]))
      = calculate_portfolio_performance
        (performance_df [({ ticker := "A", weight := 60 }, .ok 110 110 (some 100))])
    ∧ calculate_portfolio_performance
        (performance_df [({ ticker := "A", weight := 60 }, .ok 110 110 (some 100))])
      = (((performance_data [({ ticker := "A", weight := 60 }, .ok 110 110 (some 100))]).map
            (fun r => round2 r.weight * round2 r.quarterlyReturn)).sum / 100,
         ((performance_data [({ ticker := "A", weight := 60 }, .ok 110 110 (some 100))]).map
            (fun r => round2 r.weight * round2 r.dayGain)).sum / 100)
    ∧ calculate_portfolio_performance (performance_df c5demo) = (6, 0) :=
  c5_excluded_holdings [({ ticker := "A", weight := 60 }, .ok 110 110 (some 100))]
    { ticker := "B", weight := 40 } .noData rfl


/-- C6 counterexample: on c6demo the displayed contribution column sums to
0.10, while weight × quarterlyReturn / 100 over the displayed (rounded) table
is 0.101, which is also the reported portfolio quarter return; so the
contribution neither equals weight × return / 100 of the table's figures nor
reconciles additively to the portfolio total. -/
theorem c6_rounding_counterexample :
    ((performance_df c6demo).map PerfRow2.contribution).sum = 1 / 10
    ∧ (calculate_portfolio_performance (performance_df c6demo)).1 = 101 / 1000
    ∧ ((performance_df c6demo).map
        (fun r => r.weight * r.quarterlyReturn / 100)).sum = 101 / 1000
    ∧ ((1 : ℚ) / 10) ≠ 101 / 1000 := by
  rw [show performance_df c6demo
      = [roundRow ⟨"A", 10, 101006, 100000, 100000,
          (101006 - 100000) / 100000 * 100, (101006 - 100000) / 100000 * 100⟩]
      from rfl]
  norm_num [calculate_portfolio_performance, roundRow, round2, Rat.floor]

/-- C6 (amended): the contribution column is weight × quarterlyReturn / 100
computed from the UNROUNDED figures and then rounded to 2 decimals for the
displayed table, and before rounding the contributions do sum exactly to
Σ(weight × quarterlyReturn) / 100; after the 2-decimal rounding the displayed
contributions need not equal weight × return / 100 of the displayed values nor
sum exactly to the reported portfolio quarter return. -/
theorem c6_contribution_amended :
    (∀ r : PerfRow, (roundRow r).contribution
        = round2 (r.weight * r.quarterlyReturn / 100))
    ∧ (∀ l, ((performance_data l).map
          (fun r => r.weight * r.quarterlyReturn / 100)).sum
        = ((performance_data l).map (fun r => r.weight * r.quarterlyReturn)).sum / 100) := by
  constructor
  · intro r
    rfl
  · intro l
    generalize performance_data l = L
    induction L with
    | nil => simp
    | cons a t ih => simp [ih, add_div]


/-- C1 counterexample: on an ascending sequence with no point exactly at the
previous-quarter-end boundary, the deep-dive QTD return anchors at the first
point ON OR AFTER the boundary (close 100, giving 21%), while the spec's
last-point-at-or-before rule gives 10%; so the spec's reference-selection rule
does not govern the deep-dive page. -/
theorem c1_deepdive_divergence_counterexample :
    Ascending c1prices
    ∧ specQtdReturn c1prices ⟨2024, 5, 15⟩ = some 10
    ∧ calculate_returns (some c1prices) ⟨2024, 5, 15⟩ = .ok (.fin 21, .fin 21)
    ∧ RVal.fin 21 ≠ RVal.fin 10 := by
  refine ⟨?_, ?_, ?_, by norm_num⟩
  · simp only [Ascending, c1prices, List.chain'_cons, List.chain'_singleton, and_true]
    exact ⟨by decide, by decide⟩
  · rw [show specQtdReturn c1prices ⟨2024, 5, 15⟩
        = some (((121 : ℚ) - 110) / 110 * 100) from rfl]
    norm_num
  · rw [show calculate_returns (some c1prices) ⟨2024, 5, 15⟩
        = .ok (.fin (((121 : ℚ) - 100) / 100 * 100), .fin (((121 : ℚ) - 100) / 100 * 100))
        from rfl]
    norm_num

/-- C1 (amended): the formula (last − referenceClose) / referenceClose × 100
with referenceClose the close of the last point at or before the
previous-quarter-end boundary (unavailable when no such point exists) governs
the DASHBOARD's per-holding quarterly return, while the deep-dive page's QTD
return instead anchors at the FIRST point with date ≥ the boundary. -/
theorem c1_reference_rule_amended (prices : List PricePoint) (today : Date) :
    (∀ h pf row, get_stock_price (some prices) today = .ok pf →
        rowOf h pf = some row → specQtdReturn prices today = some row.quarterlyReturn)
    ∧ (∀ c y, get_stock_price (some prices) today = .ok (.ok c y none) →
        (∀ hh, rowOf hh (.ok c y none) = none) ∧ specQtdReturn prices today = none)
    ∧ (∀ r lastP refP, calculate_returns (some prices) today = .ok r →
        prices.getLast? = some lastP →
        (prices.filter (fun p => decide (previousQuarterEnd today ≤ p.date))).head?
          = some refP →
        refP.close ≠ 0 →
        firstOnOrAfterQtdReturn prices today
            = some ((lastP.close - refP.close) / refP.close * 100)
        ∧ r.2 = .fin ((lastP.close - refP.close) / refP.close * 100)) := by
  refine ⟨?_, ?_, ?_⟩
  · intro h pf row hg hr
    cases hL : prices.getLast? with
    | none => simp [get_stock_price, hL] at hg
    | some lastP =>
      cases hS : prices.reverse[1]? with
      | none => simp [get_stock_price, hL, hS] at hg
      | some sndP =>
        simp only [get_stock_price, hL, hS] at hg
        obtain rfl := Except.ok.inj hg
        cases hQ : (prices.filter
            (fun p => decide (p.date ≤ previousQuarterEnd today))).getLast? with
        | none => simp [rowOf, hQ] at hr
        | some refP =>
          simp [rowOf, hQ] at hr
          obtain ⟨⟨hc, hy, hq⟩, rfl⟩ := hr
          simp [specQtdReturn, hL, hQ]
  · intro c y hg
    cases hL : prices.getLast? with
    | none => simp [get_stock_price, hL] at hg
    | some lastP =>
      cases hS : prices.reverse[1]? with
      | none => simp [get_stock_price, hL, hS] at hg
      | some sndP =>
        simp only [get_stock_price, hL, hS, Except.ok.injEq, PriceFetch.ok.injEq] at hg
        obtain ⟨hc, hy, hq⟩ := hg
        refine ⟨fun hh => rfl, ?_⟩
        rw [Option.map_eq_none'] at hq
        simp [specQtdReturn, hL, hq]
  · intro r lastP refP hcr hL hH hne
    cases prices with
    | nil => simp at hL
    | cons a t =>
      cases hS : (a :: t).reverse[1]? with
      | none =>
        simp only [calculate_returns, hL, hS] at hcr
        exact absurd hcr (by simp)
      | some sndP =>
        simp only [calculate_returns, hL, hS] at hcr
        obtain rfl := Except.ok.inj hcr
        constructor
        · simp only [firstOnOrAfterQtdReturn, hL, hH]
        · simp [hH, hne]

/-- Witness for C1 (amended) on c1prices at evaluation date 2024-05-15: the
dashboard row's quarterly return agrees with the spec's reference rule. -/
theorem c1_reference_rule_amended_witness :
    specQtdReturn c1prices ⟨2024, 5, 15⟩ = some (((121 : ℚ) - 110) / 110 * 100) :=
  (c1_reference_rule_amended c1prices ⟨2024, 5, 15⟩).1 { ticker := "A", weight := 60 }
    (.ok 121 100 (some 110))
    ⟨"A", 60, 121, 100, 110, (121 - 110) / 110 * 100, (121 - 100) / 100 * 100⟩
    rfl (by norm_num [rowOf])




/-- C3 counterexample: two ratios do not guard the quantity they divide by.
The SPY daily return passes its guard (current and prior-quarter closes
nonzero) and divides by a zero yesterday close, yielding a non-finite value;
TTM FCF per share passes its guard (current-quarter shares nonzero) and
divides by a zero 4-quarter mean share count, also yielding a non-finite
value. -/
theorem c3_unguarded_denominator_counterexample :
    get_sp500_performance (some spyPrices0) ⟨2024, 5, 15⟩
      = .ok (.fin 25, .nonfin)
    ∧ (calculate_financial_metrics incMeanZero cfMeanZero).map Metrics.ttmFcfPerShare
      = some RVal.nonfin
    ∧ RVal.nonfin ≠ RVal.unavailable := by
  refine ⟨?_, ?_, by simp⟩
  · rw [show get_sp500_performance (some spyPrices0) ⟨2024, 5, 15⟩
        = .ok (.fin (((5 : ℚ) - 4) / 4 * 100), .nonfin) from rfl]
    norm_num
  · norm_num [calculate_financial_metrics, incMeanZero, cfMeanZero, lastN, pydiv]

/-- C3 (amended): every ratio in the pipeline whose guard tests its own
denominator (gross margin, net-income margin, FCF per share, the TTM margins,
all YoY growths, the SPY quarter return, the dashboard per-holding returns and
the deep-dive day and QTD returns) yields a finite value or an unavailable
one, never a non-finite value; the two exceptions are the SPY daily return
(denominator unguarded) and TTM FCF per share (guard tests the current-quarter
share count, not the 4-quarter mean used as denominator), as the
counterexample shows. -/
theorem c3_guarded_ratios_amended :
    (∀ inc cf, (calculate_financial_metrics inc cf).map Metrics.grossMargin ≠ some .nonfin
      ∧ (calculate_financial_metrics inc cf).map Metrics.netIncomeMargin ≠ some .nonfin
      ∧ (calculate_financial_metrics inc cf).map Metrics.fcfPerShare ≠ some .nonfin
      ∧ (calculate_financial_metrics inc cf).map Metrics.ttmGrossMargin ≠ some .nonfin
      ∧ (calculate_financial_metrics inc cf).map Metrics.ttmNetIncomeMargin ≠ some .nonfin
      ∧ (calculate_financial_metrics inc cf).map Metrics.yoyRevenueGrowth ≠ some .nonfin
      ∧ (calculate_financial_metrics inc cf).map Metrics.yoyEpsGrowth ≠ some .nonfin
      ∧ (calculate_financial_metrics inc cf).map Metrics.yoyFcfGrowth ≠ some .nonfin)
    ∧ (∀ pf, (sp500_from_fetch pf).1 ≠ .nonfin)
    ∧ (∀ h pf, (rowOf h pf).map PerfRow.prevQuarterPrice ≠ some 0
        ∧ (rowOf h pf).map PerfRow.yesterdayClose ≠ some 0)
    ∧ (∀ resp today, (calculate_returns resp today).toOption.map Prod.fst ≠ some .nonfin
        ∧ (calculate_returns resp today).toOption.map Prod.snd ≠ some .nonfin) := by
  refine ⟨?_, ?_, ?_, ?_⟩
  · intro inc cf
    cases hI : inc.getLast? with
    | none => simp [calculate_financial_metrics, hI]
    | some lastInc =>
      cases hC : cf.getLast? with
      | none => simp [calculate_financial_metrics, hI, hC]
      | some lastCf =>
        simp only [calculate_financial_metrics, hI, hC, Option.map_some', ne_eq,
          Option.some.injEq]
        refine ⟨?_, ?_, ?_, ?_, ?_, ?_, ?_, ?_⟩ <;>
          (repeat' split) <;> simp_all [pydiv]
  · intro pf
    cases pf with
    | noData => simp [sp500_from_fetch]
    | ok c y q =>
      cases q with
      | none => simp [sp500_from_fetch]
      | some qv =>
        simp only [sp500_from_fetch]
        split
        · rename_i hcond
          simp [pydiv, hcond.2, RVal.scale]
        · simp
  · intro h pf
    cases pf with
    | noData => simp [rowOf]
    | ok c y q =>
      cases q with
      | none => simp [rowOf]
      | some qv =>
        simp only [rowOf]
        split
        · rename_i hcond
          simp_all
        · simp
  · intro resp today
    cases resp with
    | none => simp [calculate_returns, Except.toOption]
    | some prices =>
      cases prices with
      | nil => simp [calculate_returns, Except.toOption]
      | cons a t =>
        cases hL : (a :: t).getLast? with
        | none => simp at hL
        | some lastP =>
          cases hS : (a :: t).reverse[1]? with
          | none =>
            simp only [calculate_returns, hL, hS, Except.toOption]
            simp
          | some sndP =>
            simp only [calculate_returns, hL, hS, Except.toOption, Option.map_some']
            constructor
            · dsimp only
              split <;> simp
            · dsimp only
              split
              · split <;> simp
              · simp

/-- Witness for C3 (amended): the SPY quarter-to-date return on a concrete
fetch with nonzero closes is not the non-finite value. -/
theorem c3_guarded_ratios_amended_witness :
    (sp500_from_fetch (.ok 5 5 (some 4))).1 ≠ RVal.nonfin :=
  c3_guarded_ratios_amended.2.1 (.ok 5 5 (some 4))

/-- C7: YoY growth compares the last period with the one 4 quarters earlier
(index length − 5): with at least 5 periods and a nonzero, truthy base the
growth is current / period[-5] − 1 for revenue, EPS and FCF; with fewer than 5
periods each growth figure is unavailable, not zero. -/
theorem c7_yoy_growth (inc : List IncRow) (cf : List CfRow)
    (li p5i : IncRow) (lc p5c : CfRow)
    (hI : inc.getLast? = some li) (hC : cf.getLast? = some lc)
    (hI5 : inc[inc.length - 5]? = some p5i) (hC5 : cf[cf.length - 5]? = some p5c) :
    (5 ≤ inc.length → p5i.revenue ≠ 0 →
      (calculate_financial_metrics inc cf).map Metrics.yoyRevenueGrowth
        = some (.fin (li.revenue / p5i.revenue - 1)))
    ∧ (5 ≤ inc.length → p5i.eps ≠ 0 →
      (calculate_financial_metrics inc cf).map Metrics.yoyEpsGrowth
        = some (.fin (li.eps / p5i.eps - 1)))
    ∧ (5 ≤ cf.length → p5c.freeCashFlow ≠ 0 →
      (calculate_financial_metrics inc cf).map Metrics.yoyFcfGrowth
        = some (.fin (lc.freeCashFlow / p5c.freeCashFlow - 1)))
    ∧ (inc.length < 5 →
      (calculate_financial_metrics inc cf).map Metrics.yoyRevenueGrowth
          = some .unavailable
      ∧ (calculate_financial_metrics inc cf).map Metrics.yoyEpsGrowth
          = some .unavailable)
    ∧ (cf.length < 5 →
      (calculate_financial_metrics inc cf).map Metrics.yoyFcfGrowth
          = some .unavailable) := by
  simp only [calculate_financial_metrics, hI, hC, hI5, hC5, Option.map_some']
  refine ⟨?_, ?_, ?_, ?_, ?_⟩
  · intro h5 hb
    rw [if_pos ⟨by omega, hb⟩]
  · intro h5 hb
    rw [if_pos ⟨by omega, hb⟩]
  · intro h5 hb
    rw [if_pos ⟨by omega, hb⟩]
  · intro h5
    constructor
    · rw [if_neg (by omega)]
    · rw [if_neg (by omega)]
  · intro h5
    rw [if_neg (by omega)]



/-- Witness for C7 on the five-quarter histories: YoY revenue growth is
50 / 10 − 1 = 4. -/
theorem c7_yoy_growth_witness :
    (calculate_financial_metrics incFive cfFive).map Metrics.yoyRevenueGrowth
      = some (RVal.fin 4) := by
  have h := (c7_yoy_growth incFive cfFive
      { revenue := 50, grossProfit := 1, netIncome := 1, weightedAverageShsOut := 1, eps := 6 }
      { revenue := 10, grossProfit := 1, netIncome := 1, weightedAverageShsOut := 1, eps := 2 }
      { freeCashFlow := 20 } { freeCashFlow := 5 }
      rfl rfl rfl rfl).1 (by simp [incFive]) (by norm_num)
  rw [h]
  norm_num

/-- C10: with at least 1 and fewer than 4 periods, the TTM flow figures are the
sums over ALL available periods (Python's iloc[-4:] is the whole frame), the
TTM margins divide those short sums, and TTM FCF per share divides by the mean
share count over the available periods — none of them is reported unavailable
merely for lack of a 4-quarter history. -/
theorem c10_short_history_ttm (inc : List IncRow) (cf : List CfRow)
    (li : IncRow) (lc : CfRow)
    (hI : inc.getLast? = some li) (hC : cf.getLast? = some lc)
    (hInc4 : inc.length < 4) (hCf4 : cf.length < 4) :
    (calculate_financial_metrics inc cf).map Metrics.ttmRevenue
        = some ((inc.map IncRow.revenue).sum)
    ∧ (calculate_financial_metrics inc cf).map Metrics.ttmGrossProfit
        = some ((inc.map IncRow.grossProfit).sum)
    ∧ (calculate_financial_metrics inc cf).map Metrics.ttmNetIncome
        = some ((inc.map IncRow.netIncome).sum)
    ∧ (calculate_financial_metrics inc cf).map Metrics.ttmEps
        = some ((inc.map IncRow.eps).sum)
    ∧ (calculate_financial_metrics inc cf).map Metrics.ttmFreeCashFlow
        = some ((cf.map CfRow.freeCashFlow).sum)
    ∧ ((inc.map IncRow.revenue).sum ≠ 0 →
        (calculate_financial_metrics inc cf).map Metrics.ttmGrossMargin
          = some (.fin ((inc.map IncRow.grossProfit).sum / (inc.map IncRow.revenue).sum))
        ∧ (calculate_financial_metrics inc cf).map Metrics.ttmNetIncomeMargin
          = some (.fin ((inc.map IncRow.netIncome).sum / (inc.map IncRow.revenue).sum)))
    ∧ (li.weightedAverageShsOut ≠ 0 →
        (calculate_financial_metrics inc cf).map Metrics.ttmFcfPerShare
          = some (pydiv ((cf.map CfRow.freeCashFlow).sum)
              ((inc.map IncRow.weightedAverageShsOut).sum / (inc.length : ℚ)))) := by
  have h4i : lastN inc 4 = inc := lastN_eq_self (by omega)
  have h4c : lastN cf 4 = cf := lastN_eq_self (by omega)
  simp only [calculate_financial_metrics, hI, hC, h4i, h4c, Option.map_some']
  refine ⟨by trivial, by trivial, by trivial, by trivial, by trivial, ?_, ?_⟩
  · intro hz
    rw [if_pos hz]
    simp [pydiv, hz]
  · intro hs
    rw [if_pos hs]



/-- Witness for C10 on two-quarter histories: TTM revenue is the sum of both
quarters and the TTM FCF per share divides by the 2-quarter mean share count. -/
theorem c10_short_history_ttm_witness :
    (calculate_financial_metrics incTwo cfTwo).map Metrics.ttmRevenue
        = some ((incTwo.map IncRow.revenue).sum)
    ∧ (calculate_financial_metrics incTwo cfTwo).map Metrics.ttmFcfPerShare
        = some (pydiv ((cfTwo.map CfRow.freeCashFlow).sum)
            ((incTwo.map IncRow.weightedAverageShsOut).sum / (incTwo.length : ℚ))) := by
  have h := c10_short_history_ttm incTwo cfTwo
    { revenue := 20, grossProfit := 6, netIncome := 3, weightedAverageShsOut := 5, eps := 2 }
    { freeCashFlow := 9 } rfl rfl (by simp [incTwo]) (by simp [cfTwo])
  exact ⟨h.1, h.2.2.2.2.2.2 (by norm_num)⟩
